import Mathlib

/-!
Verification development for the PA Titans system generator (`app.py`).

The Python source is shallowly embedded below: Python `float` arithmetic is
modelled over `ℝ` (and over `ℚ` where the source only mixes integers with
decimal literals), Python `int` over `ℤ`/`ℕ`, Python 3 `round` (round half to
even) as `py_round`, and fallible operations return `Option`.  The standard
library pseudo-random generator is external to the repository and is modelled
abstractly (see `Rng`); none of the properties proved here depend on the
concrete values of the pseudo-random stream, only on its deterministic
seed-to-stream interface and on the range/uniqueness contracts of the drawing
primitives.
-/

namespace PA

/-- Python 3 `round` with no digits argument: round half to even, as an
integer result.  `round(x, k)` for `k` digits is expressed at use sites as
`py_round (x * 10^k) / 10^k`. -/
def py_round {α : Type} [LinearOrderedField α] [FloorRing α] (x : α) : ℤ :=
  if x - ⌊x⌋ < 1/2 then ⌊x⌋
  else if 1/2 < x - ⌊x⌋ then ⌊x⌋ + 1
  else if ⌊x⌋ % 2 = 0 then ⌊x⌋ else ⌊x⌋ + 1

section PyRound

variable {α : Type} [LinearOrderedField α] [FloorRing α]

lemma py_round_cases (x : α) : py_round x = ⌊x⌋ ∨ py_round x = ⌊x⌋ + 1 := by
  unfold py_round
  split_ifs <;> simp

lemma py_round_of_lt {x : α} (h : x - ⌊x⌋ < 1/2) : py_round x = ⌊x⌋ := by
  unfold py_round
  rw [if_pos h]

lemma py_round_of_gt {x : α} (h : 1/2 < x - ⌊x⌋) : py_round x = ⌊x⌋ + 1 := by
  unfold py_round
  rw [if_neg (by linarith), if_pos h]

lemma py_round_tie {x : α} (h : x - ⌊x⌋ = 1/2) :
    py_round x = if ⌊x⌋ % 2 = 0 then ⌊x⌋ else ⌊x⌋ + 1 := by
  unfold py_round
  rw [if_neg (by linarith), if_neg (by linarith)]

lemma abs_py_round_sub (x : α) : |(py_round x : α) - x| ≤ 1/2 := by
  have h0 : (⌊x⌋ : α) ≤ x := Int.floor_le x
  have h1 : x < ⌊x⌋ + 1 := Int.lt_floor_add_one x
  unfold py_round
  split_ifs with ha hb hc <;>
    · rw [abs_le]
      push_cast
      constructor <;> linarith

lemma py_round_mono {x y : α} (hxy : x ≤ y) : py_round x ≤ py_round y := by
  have hf : ⌊x⌋ ≤ ⌊y⌋ := Int.floor_mono hxy
  by_cases hfe : ⌊x⌋ = ⌊y⌋
  · have hr : x - ⌊x⌋ ≤ y - ⌊y⌋ := by
      rw [← hfe]
      linarith
    rcases lt_trichotomy (x - ⌊x⌋ : α) (1/2) with hx1 | hx1 | hx1 <;>
      rcases lt_trichotomy (y - ⌊y⌋ : α) (1/2) with hy1 | hy1 | hy1
    · rw [py_round_of_lt hx1, py_round_of_lt hy1]; omega
    · rw [py_round_of_lt hx1, py_round_tie hy1]; split_ifs <;> omega
    · rw [py_round_of_lt hx1, py_round_of_gt hy1]; omega
    · exact absurd (lt_of_le_of_lt hr hy1) (by linarith)
    · rw [py_round_tie hx1, py_round_tie hy1, hfe]
    · rw [py_round_tie hx1, py_round_of_gt hy1]; split_ifs <;> omega
    · exact absurd (lt_of_lt_of_le hx1 hr) (by linarith)
    · exact absurd (lt_of_lt_of_le hx1 hr) (by linarith)
    · rw [py_round_of_gt hx1, py_round_of_gt hy1]; omega
  · have hlt : ⌊x⌋ + 1 ≤ ⌊y⌋ := by omega
    rcases py_round_cases x with hx | hx <;> rcases py_round_cases y with hy | hy <;> omega

lemma py_round_pos {x : α} (h : 1/2 < x) : 0 < py_round x := by
  have h1 := abs_py_round_sub x
  rw [abs_le] at h1
  have h2 : (0 : α) < (py_round x : α) := by linarith [h1.1]
  exact_mod_cast h2

lemma py_round_zero : py_round (0 : α) = 0 := by
  have h : (0 : α) - ⌊(0 : α)⌋ < 1/2 := by
    rw [Int.floor_zero]
    norm_num
  rw [py_round_of_lt h, Int.floor_zero]

end PyRound

/-- Modelled from the spec: the pseudo-random generator ("ambient mutable
random-generator state") is Python's global Mersenne Twister, which is
external to the repository; it is modelled as an abstract deterministic
state-transition generator.  All properties proved below are independent of
the concrete transition function. -/
structure Rng where
  state : Nat

/-- Modelled from the spec: one deterministic step of the pseudo-random
generator, yielding a raw natural number and the successor state. -/
def rng_next (g : Rng) : Nat × Rng :=
  let s := (6364136223846793005 * g.state + 1442695040888963407) % 2 ^ 64
  (s, ⟨s⟩)

/-- Modelled from the spec: `random.seed(s)` — "the pseudo-random generator's
seed ... is explicitly reset at the start of each seeded request"; seeding
deterministically replaces the generator state. -/
def seed_rng (s : Nat) : Rng := ⟨s⟩

/-- Modelled from the spec: `random.randint(a, b)` — a draw from the
inclusive integer range `[a, b]`. -/
def randint (g : Rng) (a b : Nat) : Nat × Rng :=
  let n := (rng_next g).1
  (a + n % (b - a + 1), (rng_next g).2)

/-- Modelled from the spec: `random.uniform(a, b)` — "uniform deviation in
[-0.1, 0.1]"; a draw from the closed rational interval `[a, b]`. -/
def uniform (g : Rng) (a b : ℚ) : ℚ × Rng :=
  (a + (b - a) * (((rng_next g).1 % 10000 : Nat) : ℚ) / 10000, (rng_next g).2)

/-- Modelled from the spec: `random.choice(l)` on a nonempty list — "a biome
tag sampled from the fixed enumeration". -/
def choice_ne {α : Type} (g : Rng) (l : List α) (h : 0 < l.length) : α × Rng :=
  let n := (rng_next g).1
  (l.get ⟨n % l.length, Nat.mod_lt n h⟩, (rng_next g).2)

/-- Modelled from the spec: `random.sample(l, k)` — "angles sampled without
replacement from a discretized angle set"; draws `k` distinct positions,
failing (as the library call does) when `k` exceeds the population size. -/
def sample {α : Type} : List α → Nat → Rng → Option (List α × Rng)
  | _, 0, g => some ([], g)
  | l, k + 1, g =>
    if l.length = 0 then none
    else
      let n := (rng_next g).1
      let g1 := (rng_next g).2
      let i := n % l.length
      match l.get? i with
      | none => none
      | some a =>
        match sample (l.eraseIdx i) k g1 with
        | none => none
        | some r => some (a :: r.1, r.2)

lemma uniform_mem (g : Rng) (a b : ℚ) (hab : a ≤ b) :
    a ≤ (uniform g a b).1 ∧ (uniform g a b).1 ≤ b := by
  have hm0 : (0 : ℚ) ≤ (((rng_next g).1 % 10000 : Nat) : ℚ) := Nat.cast_nonneg _
  have hm1 : (((rng_next g).1 % 10000 : Nat) : ℚ) ≤ 10000 := by
    exact_mod_cast Nat.le_of_lt (Nat.mod_lt _ (by norm_num))
  have key0 : 0 ≤ (b - a) * (((rng_next g).1 % 10000 : Nat) : ℚ) / 10000 :=
    div_nonneg (mul_nonneg (by linarith) hm0) (by norm_num)
  have key1 : (b - a) * (((rng_next g).1 % 10000 : Nat) : ℚ) / 10000 ≤ b - a := by
    rw [div_le_iff₀ (by norm_num : (0:ℚ) < 10000)]
    exact mul_le_mul_of_nonneg_left hm1 (by linarith)
  constructor
  · show a ≤ a + (b - a) * (((rng_next g).1 % 10000 : Nat) : ℚ) / 10000
    linarith
  · show a + (b - a) * (((rng_next g).1 % 10000 : Nat) : ℚ) / 10000 ≤ b
    linarith

lemma choice_ne_mem {α : Type} (g : Rng) (l : List α) (h : 0 < l.length) :
    (choice_ne g l h).1 ∈ l := by
  unfold choice_ne
  exact List.get_mem _ _ _

lemma get_not_mem_eraseIdx {α : Type} :
    ∀ (l : List α) (i : Nat) (h : i < l.length), l.Nodup → l.get ⟨i, h⟩ ∉ l.eraseIdx i := by
  intro l
  induction l with
  | nil => intro i h _; simp at h
  | cons a t ih =>
    intro i h hnd
    rcases List.nodup_cons.mp hnd with ⟨hat, htd⟩
    cases i with
    | zero => simpa using hat
    | succ j =>
      have hj : j < t.length := by simpa using h
      intro hmem
      simp only [List.eraseIdx, List.get] at hmem
      rcases List.mem_cons.mp hmem with heq | hmem2
      · exact hat (heq ▸ List.get_mem t j hj)
      · exact ih j hj htd hmem2

lemma sample_spec {α : Type} :
    ∀ (k : Nat) (l : List α) (g : Rng), k ≤ l.length →
      ∃ as g2, sample l k g = some (as, g2) ∧ as.length = k ∧
        (∀ a ∈ as, a ∈ l) ∧ (l.Nodup → as.Nodup) := by
  intro k
  induction k with
  | zero =>
    intro l g _
    exact ⟨[], g, rfl, rfl, by simp, by simp⟩
  | succ k ih =>
    intro l g h
    have hl : l.length ≠ 0 := by omega
    have hpos : 0 < l.length := Nat.pos_of_ne_zero hl
    have hilt : (rng_next g).1 % l.length < l.length := Nat.mod_lt _ hpos
    have hget : l.get? ((rng_next g).1 % l.length) =
        some (l.get ⟨(rng_next g).1 % l.length, hilt⟩) := List.get?_eq_get hilt
    have hlen : (l.eraseIdx ((rng_next g).1 % l.length)).length = l.length - 1 := by
      rw [List.length_eraseIdx]
      simp [hilt]
    obtain ⟨as, g2, heq, hlen2, hsub, hnd⟩ :=
      ih (l.eraseIdx ((rng_next g).1 % l.length)) (rng_next g).2 (by omega)
    refine ⟨l.get ⟨(rng_next g).1 % l.length, hilt⟩ :: as, g2, ?_, by simp [hlen2], ?_, ?_⟩
    · show sample l (k + 1) g = _
      unfold sample
      rw [if_neg hl]
      simp only [hget, heq]
    · intro a ha
      rcases List.mem_cons.mp ha with heqa | hmem
      · exact heqa ▸ List.get_mem _ _ _
      · exact (List.eraseIdx_sublist l ((rng_next g).1 % l.length)).subset (hsub a hmem)
    · intro hnodup
      refine List.nodup_cons.mpr ⟨?_, hnd ((List.eraseIdx_sublist l _).nodup hnodup)⟩
      intro hmem
      exact get_not_mem_eraseIdx l _ hilt hnodup (hsub _ hmem)

/-- `sanitize_filename`: keep a character when it is alphanumeric or one of
space, underscore, hyphen; otherwise replace it with an underscore.  This is
the per-character body of the generator expression in the source. -/
def keep_char (c : Char) : Char :=
  if c.isAlphanum || c = ' ' || c = '_' || c = '-' then c else '_'

/-- `sanitize_filename`: the trailing `.replace(" ", "_")` step, per
character. -/
def space_to_underscore (c : Char) : Char :=
  if c = ' ' then '_' else c

/-- Embedding of `sanitize_filename` (app.py, lines 23-25). -/
def sanitize_filename (name : String) : String :=
  String.mk ((name.data.map keep_char).map space_to_underscore)

/-- Characters that can appear in a sanitized filename. -/
def allowed_char (c : Char) : Bool :=
  c.isAlphanum || c = '_' || c = '-'

lemma allowed_out (c : Char) : allowed_char (space_to_underscore (keep_char c)) = true := by
  unfold keep_char space_to_underscore allowed_char
  by_cases h : (c.isAlphanum || c = ' ' || c = '_' || c = '-') = true
  · rw [if_pos h]
    by_cases hsp : c = ' '
    · rw [if_pos hsp]
      decide
    · rw [if_neg hsp]
      simp only [Bool.or_eq_true, decide_eq_true_eq] at h ⊢
      tauto
  · rw [if_neg h]
    decide

lemma allowed_fixed (c : Char) (h : allowed_char c = true) :
    keep_char c = c ∧ space_to_underscore c = c := by
  have hsp : c ≠ ' ' := by
    intro he
    subst he
    exact absurd h (by decide)
  constructor
  · unfold keep_char
    rw [if_pos]
    unfold allowed_char at h
    simp only [Bool.or_eq_true, decide_eq_true_eq] at h ⊢
    tauto
  · unfold space_to_underscore
    rw [if_neg hsp]

/-!  The data model of a generated system, following the dict shapes built in
`generate_system` (app.py, lines 84-200).  Starting-planet surfaces carry six
extra keys that resource-planet surfaces lack; those are collected in
`StartExtras`. -/

structure StartExtras where
  symmetryType : String
  symmetricalMetal : Bool
  symmetricalStarts : Bool
  numArmies : Nat
  landingZonesPerArmy : Nat
  landingZoneSize : Nat
deriving Repr, DecidableEq

structure Surface where
  seed : Nat
  radius : ℤ
  heightRange : Nat
  waterHeight : Nat
  waterDepth : Nat
  temperature : Nat
  metalDensity : ℤ
  metalClusters : Nat
  biomeScale : Nat
  biome : String
  startExtras : Option StartExtras
deriving Repr, DecidableEq

structure Orbit where
  distance : ℤ
  period : ℚ
deriving Repr, DecidableEq

structure Planet where
  name : String
  mass : Nat
  position_x : ℝ
  position_y : ℝ
  velocity_x : ℤ
  velocity_y : ℤ
  required_thrust_to_move : Nat
  starting_planet : Bool
  respawn : Bool
  start_destroyed : Bool
  min_spawn_delay : Nat
  max_spawn_delay : Nat
  planet : Surface
  orbit : Orbit

structure System where
  name : String
  description : String
  version : String
  creator : String
  players : Nat × Nat
  planets : List Planet

/-- Configuration record: the keyword parameters of `generate_system`
(app.py, lines 63-73), with the source's default values. -/
structure Params where
  num_additional_planets : Nat := 3
  starting_planet_radius : ℤ := 400
  starting_planet_metal : ℤ := 100
  additional_planet_radius : ℤ := 300
  base_metal_value : ℤ := 50
  base_orbital_distance : ℤ := 25000
  orbital_distance_step : ℤ := 10000
  system_name : Option String := none
  rng_seed : Option Nat := none

/-- Embedding of `calculate_orbital_velocity` (app.py, lines 27-35).  The
zero guard runs first, as in the source; for a negative distance
`math.sqrt` raises `ValueError` (app.py, line 35), modelled as `none`. -/
noncomputable def calculate_orbital_velocity (distance : ℝ) : Option ℝ :=
  if distance = 0 then some 0
  else if distance < 0 then none
  else some (15000 / Real.sqrt distance)

/-- The un-rounded computation of `perp_velocity` (app.py, lines 37-56),
before the final `int(round(...))` conversion, in the source's evaluation
order: the zero-distance guard (line 42), then the orbital speed (line 46) —
where a negative distance raises, BEFORE the magnitude guard of lines 50-52
is reached — then the magnitude guard, then the tangential vector.  The
magnitude's own `math.sqrt` never raises since `px*px + py*py ≥ 0`. -/
noncomputable def perp_velocity_real (px py distance : ℝ) : Option (ℝ × ℝ) :=
  if distance = 0 then some (0, 0)
  else
    match calculate_orbital_velocity distance with
    | none => none
    | some speed =>
      if Real.sqrt (px * px + py * py) = 0 then some (0, 0)
      else
        some ((-py / Real.sqrt (px * px + py * py)) * speed,
          (px / Real.sqrt (px * px + py * py)) * speed)

/-- Embedding of `perp_velocity` (app.py, lines 37-58): the un-rounded vector
with each component passed through `int(round(...))`; a raised `ValueError`
propagates unchanged. -/
noncomputable def perp_velocity (px py distance : ℝ) : Option (ℤ × ℤ) :=
  match perp_velocity_real px py distance with
  | none => none
  | some v => some (py_round v.1, py_round v.2)

/-- Python `round(x, 2)` used for stored positions (app.py, lines 116-117). -/
noncomputable def round_to2 (x : ℝ) : ℝ :=
  (py_round (x * 100) : ℝ) / 100

/-- `round(distance / 1000, 1)`, the orbit period (app.py, lines 146, 197). -/
def orbit_period (distance : ℤ) : ℚ :=
  (py_round ((distance : ℚ) / 1000 * 10) : ℚ) / 10

/-- The biome enumeration for starting planets (app.py, line 136). -/
def starting_biomes : List String :=
  ["earth", "desert", "lava", "moon", "tropical", "ice", "metal"]

/-- The biome enumeration for resource planets (app.py, line 193). -/
def resource_biomes : List String :=
  ["earth", "desert", "lava", "moon", "tropical", "ice", "metal", "gas"]

/-- One iteration of the starting-planet loop (app.py, lines 102-149):
index `i`, its orbital shell `distance` and sampled `angle` (degrees).
A `ValueError` raised by `perp_velocity` (only possible for a negative shell
distance) aborts the whole Python generation; the planet-level embedding
stays total by collapsing that error value to `(0, 0)` in the two velocity
slots — no system-level theorem reads a velocity, and the system-level
statements about successful generation are confined to configurations with
nonnegative shell distances, where no collapse occurs. -/
noncomputable def mk_starting_planet (p : Params) (i : Nat) (distance : ℤ) (angle : ℕ)
    (g : Rng) : Planet × Rng :=
  let angle_rad : ℝ := (angle : ℝ) * Real.pi / 180
  let px : ℝ := (distance : ℝ) * Real.cos angle_rad
  let py : ℝ := (distance : ℝ) * Real.sin angle_rad
  let v := (perp_velocity px py (distance : ℝ)).getD (0, 0)
  let sg := randint g 0 999999
  let bg := choice_ne sg.2 starting_biomes (by decide)
  ({ name := "Starting Planet " ++ toString (i + 1)
     mass := 10000
     position_x := round_to2 px
     position_y := round_to2 py
     velocity_x := v.1
     velocity_y := v.2
     required_thrust_to_move := 0
     starting_planet := true
     respawn := false
     start_destroyed := false
     min_spawn_delay := 0
     max_spawn_delay := 0
     planet :=
       { seed := sg.1
         radius := p.starting_planet_radius
         heightRange := 50
         waterHeight := 0
         waterDepth := 50
         temperature := 50
         metalDensity := p.starting_planet_metal
         metalClusters := 50
         biomeScale := 50
         biome := bg.1
         startExtras := some
           { symmetryType := "terrain and CSG"
             symmetricalMetal := true
             symmetricalStarts := true
             numArmies := 2
             landingZonesPerArmy := 0
             landingZoneSize := 0 } }
     orbit := { distance := distance, period := orbit_period distance } }, bg.2)

/-- One iteration of the resource-planet loop (app.py, lines 152-200); the
velocity error value is collapsed exactly as in `mk_starting_planet`. -/
noncomputable def mk_resource_planet (p : Params) (i : Nat) (distance : ℤ) (angle : ℕ)
    (g : Rng) : Planet × Rng :=
  let ug := uniform g (-(1/10)) (1/10)
  let metal_amount : ℤ := py_round ((p.base_metal_value : ℚ) * (1 + ug.1))
  let angle_rad : ℝ := (angle : ℝ) * Real.pi / 180
  let px : ℝ := (distance : ℝ) * Real.cos angle_rad
  let py : ℝ := (distance : ℝ) * Real.sin angle_rad
  let v := (perp_velocity px py (distance : ℝ)).getD (0, 0)
  let planet_type := if distance < p.base_orbital_distance * 2 then "Moon" else "Planet"
  let sg := randint ug.2 0 999999
  let tg := randint sg.2 0 100
  let bg := choice_ne tg.2 resource_biomes (by decide)
  ({ name := "Resource " ++ planet_type ++ " " ++ toString (i + 1)
     mass := 10000
     position_x := round_to2 px
     position_y := round_to2 py
     velocity_x := v.1
     velocity_y := v.2
     required_thrust_to_move := 5
     starting_planet := false
     respawn := false
     start_destroyed := false
     min_spawn_delay := 0
     max_spawn_delay := 0
     planet :=
       { seed := sg.1
         radius := p.additional_planet_radius
         heightRange := 35
         waterHeight := 0
         waterDepth := 50
         temperature := tg.1
         metalDensity := metal_amount
         metalClusters := 40
         biomeScale := 50
         biome := bg.1
         startExtras := none }
     orbit := { distance := distance, period := orbit_period distance } }, bg.2)

/-- The resource-planet loop `for i in range(num_additional_planets)`
(app.py, lines 152-200), threading the generator state; `k` counts the
remaining iterations and `i` is the current loop index. -/
noncomputable def mk_resource_planets (p : Params) (ds : List ℤ) (as : List ℕ) :
    Nat → Nat → Rng → List Planet × Rng
  | 0, _, g => ([], g)
  | k + 1, i, g =>
    let pr := mk_resource_planet p i (ds.getD (i + 2) 0) (as.getD (i + 2) 0) g
    let rest := mk_resource_planets p ds as k (i + 1) pr.2
    (pr.1 :: rest.1, rest.2)

/-- `random.seed(rng_seed)` when a seed is given (app.py, lines 78-79): a
seeded request replaces the ambient generator state. -/
def initial_rng (p : Params) (g : Rng) : Rng :=
  match p.rng_seed with
  | some s => seed_rng s
  | none => g

/-- `range(0, 360, 10)`: the discretized angle population (app.py, line 99). -/
def angle_choices : List ℕ :=
  (List.range 36).map (fun k => 10 * k)

/-- The fixed orbital shells (app.py, line 96). -/
def orbital_distances (p : Params) : List ℤ :=
  (List.range (2 + p.num_additional_planets)).map
    (fun i : ℕ => p.base_orbital_distance + (i : ℤ) * p.orbital_distance_step)

/-- The default system name f-string (app.py, lines 81-82). -/
def system_name_of (p : Params) : String :=
  match p.system_name with
  | some n => n
  | none => "Random System " ++ toString p.num_additional_planets ++ "+2"

/-- Both planet loops of `generate_system` (app.py, lines 102-200): two
starting planets on the first two shells, then the resource planets. -/
noncomputable def build_planets (p : Params) (ds : List ℤ) (as : List ℕ) (g : Rng) :
    List Planet × Rng :=
  let s0 := mk_starting_planet p 0 (ds.getD 0 0) (as.getD 0 0) g
  let s1 := mk_starting_planet p 1 (ds.getD 1 0) (as.getD 1 0) s0.2
  let rest := mk_resource_planets p ds as p.num_additional_planets 0 s1.2
  (s0.1 :: s1.1 :: rest.1, rest.2)

/-- The `system` dict assembled by `generate_system` (app.py, lines 84-91 and
149, 200) once the angle sample has succeeded. -/
noncomputable def assemble_system (p : Params) (as : List ℕ) (g : Rng) : System :=
  { name := system_name_of p
    description := "Procedural system with 2 starting planets and " ++
      toString p.num_additional_planets ++ " additional"
    version := "1.0"
    creator := "PA Titans System Generator"
    players := (2, 10)
    planets := (build_planets p (orbital_distances p) as g).1 }

/-- Embedding of `generate_system` (app.py, lines 63-202).  `g` is the
ambient generator state; a configured `rng_seed` replaces it (line 78-79).
The angle sample (line 99) fails when the total planet count exceeds the 36
available angles, exactly as `random.sample` raises there; sampling failure
is the only way generation does not return a system. -/
noncomputable def generate_system (p : Params) (g : Rng) : Option System :=
  match sample angle_choices (2 + p.num_additional_planets) (initial_rng p g) with
  | none => none
  | some r => some (assemble_system p r.1 r.2)

/-- Planets of an optional system (empty when generation failed). -/
def planets_of : Option System → List Planet
  | none => []
  | some s => s.planets

/-- The angle list drawn by `generate_system` (app.py, line 99). -/
def system_angles (p : Params) (g : Rng) : List ℕ :=
  match sample angle_choices (2 + p.num_additional_planets) (initial_rng p g) with
  | none => []
  | some r => r.1

/-- A placeholder planet, used only as the default of `List.getD`. -/
noncomputable def default_planet : Planet :=
  { name := ""
    mass := 0
    position_x := 0
    position_y := 0
    velocity_x := 0
    velocity_y := 0
    required_thrust_to_move := 0
    starting_planet := false
    respawn := false
    start_destroyed := false
    min_spawn_delay := 0
    max_spawn_delay := 0
    planet :=
      { seed := 0, radius := 0, heightRange := 0, waterHeight := 0, waterDepth := 0
        temperature := 0, metalDensity := 0, metalClusters := 0, biomeScale := 0
        biome := "", startExtras := none }
    orbit := { distance := 0, period := 0 } }

lemma mk_starting_flags (p : Params) (i : Nat) (d : ℤ) (a : ℕ) (g : Rng) :
    (mk_starting_planet p i d a g).1.starting_planet = true ∧
    (mk_starting_planet p i d a g).1.respawn = false ∧
    (mk_starting_planet p i d a g).1.start_destroyed = false ∧
    (mk_starting_planet p i d a g).1.min_spawn_delay = 0 ∧
    (mk_starting_planet p i d a g).1.max_spawn_delay = 0 :=
  ⟨rfl, rfl, rfl, rfl, rfl⟩

lemma mk_starting_distance (p : Params) (i : Nat) (d : ℤ) (a : ℕ) (g : Rng) :
    (mk_starting_planet p i d a g).1.orbit.distance = d := rfl

lemma mk_starting_radius (p : Params) (i : Nat) (d : ℤ) (a : ℕ) (g : Rng) :
    (mk_starting_planet p i d a g).1.planet.radius = p.starting_planet_radius := rfl

lemma mk_starting_metal (p : Params) (i : Nat) (d : ℤ) (a : ℕ) (g : Rng) :
    (mk_starting_planet p i d a g).1.planet.metalDensity = p.starting_planet_metal := rfl

lemma mk_starting_biome_mem (p : Params) (i : Nat) (d : ℤ) (a : ℕ) (g : Rng) :
    (mk_starting_planet p i d a g).1.planet.biome ∈ starting_biomes := by
  simp only [mk_starting_planet]
  exact choice_ne_mem _ _ _

lemma mk_resource_flags (p : Params) (i : Nat) (d : ℤ) (a : ℕ) (g : Rng) :
    (mk_resource_planet p i d a g).1.starting_planet = false ∧
    (mk_resource_planet p i d a g).1.respawn = false ∧
    (mk_resource_planet p i d a g).1.start_destroyed = false ∧
    (mk_resource_planet p i d a g).1.min_spawn_delay = 0 ∧
    (mk_resource_planet p i d a g).1.max_spawn_delay = 0 :=
  ⟨rfl, rfl, rfl, rfl, rfl⟩

lemma mk_resource_distance (p : Params) (i : Nat) (d : ℤ) (a : ℕ) (g : Rng) :
    (mk_resource_planet p i d a g).1.orbit.distance = d := rfl

lemma mk_resource_radius (p : Params) (i : Nat) (d : ℤ) (a : ℕ) (g : Rng) :
    (mk_resource_planet p i d a g).1.planet.radius = p.additional_planet_radius := rfl

lemma mk_resource_metal (p : Params) (i : Nat) (d : ℤ) (a : ℕ) (g : Rng) :
    (mk_resource_planet p i d a g).1.planet.metalDensity =
      py_round ((p.base_metal_value : ℚ) * (1 + (uniform g (-(1/10)) (1/10)).1)) := by
  simp only [mk_resource_planet]

lemma mk_resource_biome_mem (p : Params) (i : Nat) (d : ℤ) (a : ℕ) (g : Rng) :
    (mk_resource_planet p i d a g).1.planet.biome ∈ resource_biomes := by
  simp only [mk_resource_planet]
  exact choice_ne_mem _ _ _

lemma mk_resource_planets_length (p : Params) (ds : List ℤ) (as : List ℕ) :
    ∀ (k i : Nat) (g : Rng), (mk_resource_planets p ds as k i g).1.length = k := by
  intro k
  induction k with
  | zero => intro i g; rfl
  | succ k ih =>
    intro i g
    simp only [mk_resource_planets, List.length_cons, ih]

lemma mk_resource_planets_getD (p : Params) (ds : List ℤ) (as : List ℕ) :
    ∀ (k j i : Nat) (g : Rng), j < k → ∃ g2,
      (mk_resource_planets p ds as k i g).1.getD j default_planet =
        (mk_resource_planet p (i + j) (ds.getD (i + j + 2) 0) (as.getD (i + j + 2) 0) g2).1 := by
  intro k
  induction k with
  | zero => intro j i g hj; omega
  | succ k ih =>
    intro j i g hj
    cases j with
    | zero =>
      refine ⟨g, ?_⟩
      simp only [mk_resource_planets, List.getD_cons_zero, Nat.add_zero]
    | succ j =>
      obtain ⟨g2, hg2⟩ := ih j (i + 1)
        (mk_resource_planet p i (ds.getD (i + 2) 0) (as.getD (i + 2) 0) g).2 (by omega)
      rw [show i + 1 + j = i + (j + 1) from by omega] at hg2
      refine ⟨g2, ?_⟩
      simp only [mk_resource_planets, List.getD_cons_succ]
      exact hg2

lemma generate_system_spec (p : Params) (g : Rng)
    (h : 2 + p.num_additional_planets ≤ 36) :
    ∃ as g2,
      sample angle_choices (2 + p.num_additional_planets) (initial_rng p g) = some (as, g2) ∧
      as.length = 2 + p.num_additional_planets ∧
      (∀ a ∈ as, a ∈ angle_choices) ∧ as.Nodup ∧
      generate_system p g = some (assemble_system p as g2) ∧
      system_angles p g = as := by
  have hlen : angle_choices.length = 36 := by simp [angle_choices]
  obtain ⟨as, g2, hs, h1, h2, h3⟩ :=
    sample_spec (2 + p.num_additional_planets) angle_choices (initial_rng p g) (by omega)
  have hnd : angle_choices.Nodup := by decide
  exact ⟨as, g2, hs, h1, h2, h3 hnd,
    by simp [generate_system, hs], by simp [system_angles, hs]⟩

lemma planets_of_length (p : Params) (g : Rng)
    (h : 2 + p.num_additional_planets ≤ 36) :
    (planets_of (generate_system p g)).length = 2 + p.num_additional_planets := by
  obtain ⟨as, g2, _, _, _, _, hgen, _⟩ := generate_system_spec p g h
  rw [hgen]
  show (build_planets p (orbital_distances p) as g2).1.length = _
  simp only [build_planets, List.length_cons, mk_resource_planets_length]
  omega

lemma planets_of_getD_start (p : Params) (g : Rng)
    (h : 2 + p.num_additional_planets ≤ 36) (i : Nat) (hi : i < 2) :
    ∃ gi, (planets_of (generate_system p g)).getD i default_planet =
      (mk_starting_planet p i ((orbital_distances p).getD i 0)
        ((system_angles p g).getD i 0) gi).1 := by
  obtain ⟨as, g2, _, _, _, _, hgen, hang⟩ := generate_system_spec p g h
  rw [hgen, hang]
  show ∃ gi, (build_planets p (orbital_distances p) as g2).1.getD i default_planet = _
  interval_cases i
  · exact ⟨g2, rfl⟩
  · exact ⟨(mk_starting_planet p 0 ((orbital_distances p).getD 0 0) (as.getD 0 0) g2).2, rfl⟩

lemma planets_of_getD_resource (p : Params) (g : Rng)
    (h : 2 + p.num_additional_planets ≤ 36) (j : Nat)
    (hj : j < p.num_additional_planets) :
    ∃ gj, (planets_of (generate_system p g)).getD (j + 2) default_planet =
      (mk_resource_planet p j ((orbital_distances p).getD (j + 2) 0)
        ((system_angles p g).getD (j + 2) 0) gj).1 := by
  obtain ⟨as, g2, _, _, _, _, hgen, hang⟩ := generate_system_spec p g h
  rw [hgen, hang]
  obtain ⟨g3, hg3⟩ := mk_resource_planets_getD p (orbital_distances p) as
    p.num_additional_planets j 0
    ((mk_starting_planet p 1 ((orbital_distances p).getD 1 0) (as.getD 1 0)
      (mk_starting_planet p 0 ((orbital_distances p).getD 0 0) (as.getD 0 0) g2).2).2) hj
  rw [show (0 : ℕ) + j = j from by omega] at hg3
  refine ⟨g3, ?_⟩
  show (build_planets p (orbital_distances p) as g2).1.getD (j + 2) default_planet = _
  have h2 : j + 2 = j + 1 + 1 := rfl
  rw [h2]
  simp only [build_planets, List.getD_cons_succ]
  exact hg3

lemma orbital_distances_getD (p : Params) (i : Nat)
    (hi : i < 2 + p.num_additional_planets) :
    (orbital_distances p).getD i 0 =
      p.base_orbital_distance + (i : ℤ) * p.orbital_distance_step := by
  have hl : i < (orbital_distances p).length := by
    rw [orbital_distances, List.length_map, List.length_range]
    exact hi
  rw [List.getD_eq_getElem _ _ hl]
  simp only [orbital_distances, List.getElem_map, List.getElem_range]

/-!  Serialization and packaging (`create_zip_file`, app.py lines 207-250, and
the individual-download path, lines 380-392).  JSON values are modelled
structurally; `json.dumps` of a Python dict is the `Jval.obj` of its key/value
pairs in insertion order. -/

inductive Jval : Type
  | str : String → Jval
  | int : ℤ → Jval
  | rat : ℚ → Jval
  | real : ℝ → Jval
  | bool : Bool → Jval
  | arr : List Jval → Jval
  | obj : List (String × Jval) → Jval

/-- JSON encoding of the extra starting-planet surface keys. -/
def encode_extras (e : StartExtras) : List (String × Jval) :=
  [("symmetryType", Jval.str e.symmetryType),
   ("symmetricalMetal", Jval.bool e.symmetricalMetal),
   ("symmetricalStarts", Jval.bool e.symmetricalStarts),
   ("numArmies", Jval.int e.numArmies),
   ("landingZonesPerArmy", Jval.int e.landingZonesPerArmy),
   ("landingZoneSize", Jval.int e.landingZoneSize)]

/-- JSON encoding of the nested `planet` dict (app.py, lines 126-143 and
183-194). -/
def encode_surface (s : Surface) : Jval :=
  Jval.obj
    ([("seed", Jval.int s.seed),
      ("radius", Jval.int s.radius),
      ("heightRange", Jval.int s.heightRange),
      ("waterHeight", Jval.int s.waterHeight),
      ("waterDepth", Jval.int s.waterDepth),
      ("temperature", Jval.int s.temperature),
      ("metalDensity", Jval.int s.metalDensity),
      ("metalClusters", Jval.int s.metalClusters),
      ("biomeScale", Jval.int s.biomeScale),
      ("biome", Jval.str s.biome)] ++
      (match s.startExtras with
       | none => []
       | some e => encode_extras e))

/-- JSON encoding of a planet dict (app.py, lines 113-148 and 170-199). -/
def encode_planet (pl : Planet) : Jval :=
  Jval.obj
    [("name", Jval.str pl.name),
     ("mass", Jval.int pl.mass),
     ("position_x", Jval.real pl.position_x),
     ("position_y", Jval.real pl.position_y),
     ("velocity_x", Jval.int pl.velocity_x),
     ("velocity_y", Jval.int pl.velocity_y),
     ("required_thrust_to_move", Jval.int pl.required_thrust_to_move),
     ("starting_planet", Jval.bool pl.starting_planet),
     ("respawn", Jval.bool pl.respawn),
     ("start_destroyed", Jval.bool pl.start_destroyed),
     ("min_spawn_delay", Jval.int pl.min_spawn_delay),
     ("max_spawn_delay", Jval.int pl.max_spawn_delay),
     ("planet", encode_surface pl.planet),
     ("orbit", Jval.obj
       [("distance", Jval.int pl.orbit.distance),
        ("period", Jval.rat pl.orbit.period)])]

/-- JSON encoding of the `system` dict (app.py, lines 84-91). -/
def encode_system (s : System) : Jval :=
  Jval.obj
    [("name", Jval.str s.name),
     ("description", Jval.str s.description),
     ("version", Jval.str s.version),
     ("creator", Jval.str s.creator),
     ("players", Jval.arr [Jval.int s.players.1, Jval.int s.players.2]),
     ("planets", Jval.arr (s.planets.map encode_planet))]

/-- Content of one archive member: the JSON payloads are kept structural,
the README is plain text. -/
inductive ZContent : Type
  | json : Jval → ZContent
  | text : String → ZContent

/-- One member of the produced archive. -/
structure ZipEntry where
  path : String
  content : ZContent

/-- The fixed `modinfo.json` payload (app.py, lines 222-230). -/
def modinfo_json : Jval :=
  Jval.obj
    [("context", Jval.str "server"),
     ("identifier", Jval.str "generated_maps"),
     ("display_name", Jval.str "Generated Maps"),
     ("description", Jval.str "Custom systems generated by Streamlit tool"),
     ("author", Jval.str "PA Titans Community"),
     ("version", Jval.str "1.0"),
     ("priority", Jval.int 100)]

/-- The fixed README text (app.py, lines 234-246; the directory diagram is
abbreviated, it plays no role in any property). -/
def readme_text : String :=
  "# PA Titans Generated Systems\n\n" ++
  "Copy the 'generated_maps' folder into your Planetary Annihilation " ++
  "server_mods directory.\n"

/-- Embedding of `create_zip_file` (app.py, lines 207-250): one `.pas` member
per system under `pa/maps/`, each holding the JSON array `[system]`, then the
fixed `modinfo.json` and `README.txt` members. -/
def create_zip_file (systems : List System) : List ZipEntry :=
  (systems.enum.map (fun e =>
    ZipEntry.mk
      ("pa/maps/" ++ sanitize_filename e.2.name ++ "_" ++ toString (e.1 + 1) ++ ".pas")
      (ZContent.json (Jval.arr [encode_system e.2])))) ++
  [ZipEntry.mk "modinfo.json" (ZContent.json modinfo_json),
   ZipEntry.mk "README.txt" (ZContent.text readme_text)]

/-- The individual-download payload `json.dumps([sys_obj], indent=2)`
(app.py, line 384). -/
def download_json (s : System) : Jval :=
  Jval.arr [encode_system s]

/-- The individual-download filename (app.py, line 385). -/
def download_filename (s : System) : String :=
  sanitize_filename s.name ++ ".pas"

/-- A placeholder system, used only as the default of `List.getD`. -/
def default_system : System :=
  { name := "", description := "", version := "", creator := ""
    players := (0, 0), planets := [] }

/-- A placeholder archive member, used only as the default of `List.getD`. -/
def dummy_entry : ZipEntry :=
  ZipEntry.mk "" (ZContent.text "")

/-- A fixed generator state, standing for arbitrary ambient randomness. -/
def rng0 : Rng := ⟨0⟩

/-- A second distinct ambient generator state. -/
def rng1 : Rng := ⟨123456789⟩

/-- The source's default configuration. -/
def P0 : Params := {}

/-- The default configuration with a fixed seed, as produced by the UI's
"Use fixed RNG seed" option (app.py, lines 284-287, 311-313). -/
def P2 : Params := { rng_seed := some 42 }

/-- An invalid configuration: negative starting-planet radius. -/
def bad_params : Params := { num_additional_planets := 1, starting_planet_radius := -5 }

lemma initial_rng_seeded (p : Params) (g : Rng) (S : Nat) (h : p.rng_seed = some S) :
    initial_rng p g = seed_rng S := by
  unfold initial_rng
  rw [h]

lemma perp_velocity_getD (px py d : ℝ) :
    (perp_velocity px py d).getD (0, 0) =
      (py_round (((perp_velocity_real px py d).getD (0, 0)).1),
        py_round (((perp_velocity_real px py d).getD (0, 0)).2)) := by
  unfold perp_velocity
  cases perp_velocity_real px py d with
  | none => simp [py_round_zero]
  | some v => simp

/-- Claim C1: for every position handed to the velocity primitive, the
un-rounded perpendicular velocity is exactly orthogonal to the position
(`px*vx + py*vy = 0`), and after rounding the components to integers the dot
product stays within the rounding tolerance `(|px|+|py|)/2` of zero.  The
vectors are read through `Option.getD (0, 0)`: on the error branch (negative
distance, where the source raises and assigns no velocity at all) both sums
are zero and the bounds hold trivially; every planet actually produced by
`generate_system` receives its velocity from the non-error branch of
`perp_velocity`, which this theorem covers exactly. -/
theorem C1_perp_velocity_dot (px py d : ℝ) :
    px * ((perp_velocity_real px py d).getD (0, 0)).1 +
      py * ((perp_velocity_real px py d).getD (0, 0)).2 = 0 ∧
    |px * ((((perp_velocity px py d).getD (0, 0)).1 : ℤ) : ℝ) +
      py * ((((perp_velocity px py d).getD (0, 0)).2 : ℤ) : ℝ)| ≤
      (|px| + |py|) / 2 := by
  have hdot : px * ((perp_velocity_real px py d).getD (0, 0)).1 +
      py * ((perp_velocity_real px py d).getD (0, 0)).2 = 0 := by
    by_cases h1 : d = 0
    · unfold perp_velocity_real
      rw [if_pos h1]
      simp
    · by_cases h2 : d < 0
      · have hc : calculate_orbital_velocity d = none := by
          unfold calculate_orbital_velocity
          rw [if_neg h1, if_pos h2]
        unfold perp_velocity_real
        rw [if_neg h1, hc]
        simp
      · have hc : calculate_orbital_velocity d = some (15000 / Real.sqrt d) := by
          unfold calculate_orbital_velocity
          rw [if_neg h1, if_neg h2]
        unfold perp_velocity_real
        rw [if_neg h1, hc]
        dsimp only
        by_cases h3 : Real.sqrt (px * px + py * py) = 0
        · rw [if_pos h3]
          simp
        · rw [if_neg h3]
          simp only [Option.getD_some]
          ring
  refine ⟨hdot, ?_⟩
  rw [perp_velocity_getD]
  have h1 := abs_py_round_sub ((perp_velocity_real px py d).getD (0, 0)).1
  have h2 := abs_py_round_sub ((perp_velocity_real px py d).getD (0, 0)).2
  have hrw : px * ((py_round ((perp_velocity_real px py d).getD (0, 0)).1 : ℤ) : ℝ) +
      py * ((py_round ((perp_velocity_real px py d).getD (0, 0)).2 : ℤ) : ℝ) =
      px * (((py_round ((perp_velocity_real px py d).getD (0, 0)).1 : ℤ) : ℝ) -
        ((perp_velocity_real px py d).getD (0, 0)).1) +
      py * (((py_round ((perp_velocity_real px py d).getD (0, 0)).2 : ℤ) : ℝ) -
        ((perp_velocity_real px py d).getD (0, 0)).2) := by
    linear_combination hdot
  calc |px * (((py_round ((perp_velocity_real px py d).getD (0, 0)).1,
          py_round ((perp_velocity_real px py d).getD (0, 0)).2).1 : ℤ) : ℝ) +
        py * (((py_round ((perp_velocity_real px py d).getD (0, 0)).1,
          py_round ((perp_velocity_real px py d).getD (0, 0)).2).2 : ℤ) : ℝ)|
      = |px * (((py_round ((perp_velocity_real px py d).getD (0, 0)).1 : ℤ) : ℝ) -
          ((perp_velocity_real px py d).getD (0, 0)).1) +
        py * (((py_round ((perp_velocity_real px py d).getD (0, 0)).2 : ℤ) : ℝ) -
          ((perp_velocity_real px py d).getD (0, 0)).2)| := by rw [← hrw]
    _ ≤ |px * (((py_round ((perp_velocity_real px py d).getD (0, 0)).1 : ℤ) : ℝ) -
          ((perp_velocity_real px py d).getD (0, 0)).1)| +
        |py * (((py_round ((perp_velocity_real px py d).getD (0, 0)).2 : ℤ) : ℝ) -
          ((perp_velocity_real px py d).getD (0, 0)).2)| := abs_add _ _
    _ = |px| * |((py_round ((perp_velocity_real px py d).getD (0, 0)).1 : ℤ) : ℝ) -
          ((perp_velocity_real px py d).getD (0, 0)).1| +
        |py| * |((py_round ((perp_velocity_real px py d).getD (0, 0)).2 : ℤ) : ℝ) -
          ((perp_velocity_real px py d).getD (0, 0)).2| := by rw [abs_mul, abs_mul]
    _ ≤ |px| * (1/2) + |py| * (1/2) :=
        add_le_add (mul_le_mul_of_nonneg_left h1 (abs_nonneg px))
          (mul_le_mul_of_nonneg_left h2 (abs_nonneg py))
    _ = (|px| + |py|) / 2 := by ring

/-- Claim C2: with a fixed seed configured, `generate_system` ignores the
ambient generator state — two independent runs from arbitrary prior states
produce the same `System` value (hence the same planet count, positions,
velocities, biomes, metal densities and surface seeds). -/
theorem C2_seeded_determinism (p : Params) (S : Nat) (g1 g2 : Rng)
    (h : p.rng_seed = some S) :
    generate_system p g1 = generate_system p g2 := by
  unfold generate_system
  rw [initial_rng_seeded p g1 S h, initial_rng_seeded p g2 S h]

/-- Witness for C2 at the seeded default configuration and two distinct
ambient states. -/
theorem C2_seeded_determinism_witness :
    P2.rng_seed = some 42 ∧ generate_system P2 rng0 = generate_system P2 rng1 :=
  ⟨rfl, C2_seeded_determinism P2 42 rng0 rng1 rfl⟩

/-- Claim C7: `sanitize_filename` is idempotent, and its output contains only
alphanumeric characters, underscores and hyphens. -/
theorem C7_sanitize_idempotent (s : String) :
    sanitize_filename (sanitize_filename s) = sanitize_filename s ∧
    (sanitize_filename s).data.all allowed_char = true := by
  have hall : ∀ c ∈ (s.data.map keep_char).map space_to_underscore,
      allowed_char c = true := by
    intro c hc
    rw [List.map_map] at hc
    obtain ⟨d, _, hd⟩ := List.mem_map.mp hc
    rw [← hd]
    exact allowed_out d
  constructor
  · show String.mk ((((s.data.map keep_char).map space_to_underscore).map keep_char).map
        space_to_underscore) = String.mk ((s.data.map keep_char).map space_to_underscore)
    congr 1
    rw [List.map_map]
    have hid : ∀ c ∈ (s.data.map keep_char).map space_to_underscore,
        (space_to_underscore ∘ keep_char) c = c := by
      intro c hc
      obtain ⟨h1, h2⟩ := allowed_fixed c (hall c hc)
      show space_to_underscore (keep_char c) = c
      rw [h1, h2]
    rw [List.map_congr_left hid]
    simp
  · rw [List.all_eq_true]
    intro c hc
    exact hall c hc

/-- Counterexample to claim C9 as stated: at the zero-magnitude position
`(0, 0)` with distance `-1`, `perp_velocity` does not return a fallback
velocity — the speed computation at app.py line 46 runs before the magnitude
guard of lines 50-52 and raises `ValueError` in `math.sqrt` (modelled as
`none`), so an error IS surfaced to the caller. -/
theorem C9_counterexample :
    perp_velocity_real 0 0 (-1) = none ∧ perp_velocity 0 0 (-1) = none := by
  have hc : calculate_orbital_velocity (-1 : ℝ) = none := by
    unfold calculate_orbital_velocity
    rw [if_neg (by norm_num : (-1 : ℝ) ≠ 0), if_pos (by norm_num : (-1 : ℝ) < 0)]
  have h1 : perp_velocity_real (0 : ℝ) 0 (-1) = none := by
    unfold perp_velocity_real
    rw [if_neg (by norm_num : (-1 : ℝ) ≠ 0), hc]
  refine ⟨h1, ?_⟩
  unfold perp_velocity
  rw [h1]

/-- Claim C9 as amended: with a zero orbital distance, or with a
zero-magnitude position and nonnegative distance, the velocity primitive
performs no division by zero and returns the zero-velocity fallback with no
error surfaced (the zero-distance guard fires first, and for zero magnitude
the second guard fires before any division); being a pure function it is
deterministic under any fixed seed.  For a zero-magnitude position with
NEGATIVE distance, however, the speed computation (app.py, line 46) raises
before the magnitude guard is reached — that case is excluded here and
settled by the counterexample. -/
theorem C9_origin_fallback (px py d : ℝ)
    (h : d = 0 ∨ (px = 0 ∧ py = 0 ∧ 0 ≤ d)) :
    perp_velocity_real px py d = some (0, 0) ∧ perp_velocity px py d = some (0, 0) := by
  have hreal : perp_velocity_real px py d = some (0, 0) := by
    rcases h with hd | ⟨hx, hy, hdn⟩
    · unfold perp_velocity_real
      rw [if_pos hd]
    · by_cases hd : d = 0
      · unfold perp_velocity_real
        rw [if_pos hd]
      · have hc : calculate_orbital_velocity d = some (15000 / Real.sqrt d) := by
          unfold calculate_orbital_velocity
          rw [if_neg hd, if_neg (not_lt.mpr hdn)]
        subst hx
        subst hy
        unfold perp_velocity_real
        rw [if_neg hd, hc]
        dsimp only
        rw [if_pos (by simp : Real.sqrt ((0:ℝ) * 0 + 0 * 0) = 0)]
  refine ⟨hreal, ?_⟩
  unfold perp_velocity
  rw [hreal]
  simp [py_round_zero]

/-- Witness for the amended C9 at the origin with zero distance. -/
theorem C9_origin_fallback_witness :
    ((0:ℝ) = 0 ∨ ((0:ℝ) = 0 ∧ (0:ℝ) = 0 ∧ (0:ℝ) ≤ 0)) ∧
    (perp_velocity_real 0 0 0 = some (0, 0) ∧ perp_velocity 0 0 0 = some (0, 0)) :=
  ⟨Or.inl rfl, C9_origin_fallback 0 0 0 (Or.inl rfl)⟩

/-- Claim C3: in a generated system with `N = 2 + M` planets, the list of
orbital distances in planet order is exactly
`[B, B+D, ..., B+(N-1)D]` — planet `i` sits on shell `B + i*D`, each shell
used exactly once — and the `N` sampled orbital angles are pairwise distinct
multiples of 10 degrees below 360, so no two planets share both distance and
angle. -/
theorem C3_shell_distances (p : Params) (g : Rng)
    (h : 2 + p.num_additional_planets ≤ 36) :
    (planets_of (generate_system p g)).map (fun pl => pl.orbit.distance) =
      (List.range (2 + p.num_additional_planets)).map
        (fun i : ℕ => p.base_orbital_distance + (i : ℤ) * p.orbital_distance_step) ∧
    (system_angles p g).length = 2 + p.num_additional_planets ∧
    (system_angles p g).Nodup ∧
    (system_angles p g).all (fun a => decide (a % 10 = 0 ∧ a < 360)) = true := by
  obtain ⟨as, g2, hs, hlen, hsub, hnd, hgen, hang⟩ := generate_system_spec p g h
  refine ⟨?_, by rw [hang]; exact hlen, by rw [hang]; exact hnd, ?_⟩
  · apply List.ext_getElem
    · rw [List.length_map, planets_of_length p g h, List.length_map, List.length_range]
    · intro i h1 h2
      have hi2 : i < 2 + p.num_additional_planets := by
        rw [List.length_map, planets_of_length p g h] at h1
        exact h1
      have hipl : i < (planets_of (generate_system p g)).length := by
        rw [planets_of_length p g h]
        exact hi2
      rw [List.getElem_map, List.getElem_map, List.getElem_range,
        ← List.getD_eq_getElem (planets_of (generate_system p g)) default_planet hipl]
      by_cases hilt : i < 2
      · obtain ⟨gi, hgi⟩ := planets_of_getD_start p g h i hilt
        rw [hgi, mk_starting_distance, orbital_distances_getD p i hi2]
      · obtain ⟨j, rfl⟩ : ∃ j, i = j + 2 := ⟨i - 2, by omega⟩
        obtain ⟨gj, hgj⟩ := planets_of_getD_resource p g h j (by omega)
        rw [hgj, mk_resource_distance, orbital_distances_getD p (j + 2) hi2]
  · rw [hang, List.all_eq_true]
    intro a ha
    have hmem := hsub a ha
    have hval : ∀ x ∈ angle_choices, x % 10 = 0 ∧ x < 360 := by decide
    simpa using hval a hmem

/-- Witness for C3 at the default configuration. -/
theorem C3_shell_distances_witness :
    (2 + P0.num_additional_planets ≤ 36) ∧
    ((planets_of (generate_system P0 rng0)).map (fun pl => pl.orbit.distance) =
      (List.range (2 + P0.num_additional_planets)).map
        (fun i : ℕ => P0.base_orbital_distance + (i : ℤ) * P0.orbital_distance_step) ∧
    (system_angles P0 rng0).length = 2 + P0.num_additional_planets ∧
    (system_angles P0 rng0).Nodup ∧
    (system_angles P0 rng0).all (fun a => decide (a % 10 = 0 ∧ a < 360)) = true) :=
  ⟨by decide, C3_shell_distances P0 rng0 (by decide)⟩

/-- Claim C5: every resource planet's metal density is
`round(V * (1 + u))` for a deviation `u` drawn from `[-0.1, 0.1]`; for a
positive base value `V` it therefore lies between `round(0.9V)` and
`round(1.1V)` and is strictly positive.  `j` indexes the resource planets, so
planet `j + 2` of the system. -/
theorem C5_metal_density (p : Params) (g : Rng) (j : Nat)
    (h : 2 + p.num_additional_planets ≤ 36)
    (hj : j < p.num_additional_planets)
    (hV : 1 ≤ p.base_metal_value) :
    ∃ u : ℚ, -(1/10) ≤ u ∧ u ≤ 1/10 ∧
      ((planets_of (generate_system p g)).getD (j + 2) default_planet).planet.metalDensity =
        py_round ((p.base_metal_value : ℚ) * (1 + u)) ∧
      py_round (9 * (p.base_metal_value : ℚ) / 10) ≤
        ((planets_of (generate_system p g)).getD (j + 2) default_planet).planet.metalDensity ∧
      ((planets_of (generate_system p g)).getD (j + 2) default_planet).planet.metalDensity ≤
        py_round (11 * (p.base_metal_value : ℚ) / 10) ∧
      0 < ((planets_of (generate_system p g)).getD (j + 2)
        default_planet).planet.metalDensity := by
  obtain ⟨gj, hgj⟩ := planets_of_getD_resource p g h j hj
  rw [hgj, mk_resource_metal]
  obtain ⟨hu1, hu2⟩ := uniform_mem gj (-(1/10)) (1/10) (by norm_num)
  have hVQ : (1:ℚ) ≤ (p.base_metal_value : ℚ) := by exact_mod_cast hV
  have hlow : 9 * (p.base_metal_value : ℚ) / 10 ≤
      (p.base_metal_value : ℚ) * (1 + (uniform gj (-(1/10)) (1/10)).1) := by nlinarith
  have hhigh : (p.base_metal_value : ℚ) * (1 + (uniform gj (-(1/10)) (1/10)).1) ≤
      11 * (p.base_metal_value : ℚ) / 10 := by nlinarith
  have hpos : (1:ℚ)/2 < (p.base_metal_value : ℚ) * (1 + (uniform gj (-(1/10)) (1/10)).1) := by
    nlinarith
  exact ⟨(uniform gj (-(1/10)) (1/10)).1, hu1, hu2, rfl,
    py_round_mono hlow, py_round_mono hhigh, py_round_pos hpos⟩

/-- Witness for C5 at the default configuration (base metal 50), first
resource planet. -/
theorem C5_metal_density_witness :
    (2 + P0.num_additional_planets ≤ 36) ∧ (0 < P0.num_additional_planets) ∧
    (1 ≤ P0.base_metal_value) ∧
    (∃ u : ℚ, -(1/10) ≤ u ∧ u ≤ 1/10 ∧
      ((planets_of (generate_system P0 rng0)).getD (0 + 2)
        default_planet).planet.metalDensity =
        py_round ((P0.base_metal_value : ℚ) * (1 + u)) ∧
      py_round (9 * (P0.base_metal_value : ℚ) / 10) ≤
        ((planets_of (generate_system P0 rng0)).getD (0 + 2)
          default_planet).planet.metalDensity ∧
      ((planets_of (generate_system P0 rng0)).getD (0 + 2)
        default_planet).planet.metalDensity ≤
        py_round (11 * (P0.base_metal_value : ℚ) / 10) ∧
      0 < ((planets_of (generate_system P0 rng0)).getD (0 + 2)
        default_planet).planet.metalDensity) :=
  ⟨by decide, by decide, by decide,
    C5_metal_density P0 rng0 0 (by decide) (by decide) (by decide)⟩

/-- Claim C8: a generated system has exactly `2 + M` planets; planet `i` is a
starting planet exactly when `i < 2`; and every planet has `respawn` and
`start_destroyed` false and both spawn-delay bounds zero. -/
theorem C8_planet_flags (p : Params) (g : Rng) (i : Nat)
    (h : 2 + p.num_additional_planets ≤ 36)
    (hi : i < 2 + p.num_additional_planets) :
    (planets_of (generate_system p g)).length = 2 + p.num_additional_planets ∧
    ((planets_of (generate_system p g)).getD i default_planet).starting_planet =
      decide (i < 2) ∧
    ((planets_of (generate_system p g)).getD i default_planet).respawn = false ∧
    ((planets_of (generate_system p g)).getD i default_planet).start_destroyed = false ∧
    ((planets_of (generate_system p g)).getD i default_planet).min_spawn_delay = 0 ∧
    ((planets_of (generate_system p g)).getD i default_planet).max_spawn_delay = 0 := by
  refine ⟨planets_of_length p g h, ?_⟩
  by_cases hilt : i < 2
  · obtain ⟨gi, hgi⟩ := planets_of_getD_start p g h i hilt
    rw [hgi]
    obtain ⟨f1, f2, f3, f4, f5⟩ :=
      mk_starting_flags p i ((orbital_distances p).getD i 0) ((system_angles p g).getD i 0) gi
    refine ⟨?_, f2, f3, f4, f5⟩
    rw [f1]
    exact (decide_eq_true hilt).symm
  · obtain ⟨j, rfl⟩ : ∃ j, i = j + 2 := ⟨i - 2, by omega⟩
    obtain ⟨gj, hgj⟩ := planets_of_getD_resource p g h j (by omega)
    rw [hgj]
    obtain ⟨f1, f2, f3, f4, f5⟩ := mk_resource_flags p j
      ((orbital_distances p).getD (j + 2) 0) ((system_angles p g).getD (j + 2) 0) gj
    refine ⟨?_, f2, f3, f4, f5⟩
    rw [f1]
    exact (decide_eq_false hilt).symm

/-- Witness for C8 at the default configuration, planet 0. -/
theorem C8_planet_flags_witness :
    (2 + P0.num_additional_planets ≤ 36) ∧ (0 < 2 + P0.num_additional_planets) ∧
    ((planets_of (generate_system P0 rng0)).length = 2 + P0.num_additional_planets ∧
    ((planets_of (generate_system P0 rng0)).getD 0 default_planet).starting_planet =
      decide (0 < 2) ∧
    ((planets_of (generate_system P0 rng0)).getD 0 default_planet).respawn = false ∧
    ((planets_of (generate_system P0 rng0)).getD 0 default_planet).start_destroyed = false ∧
    ((planets_of (generate_system P0 rng0)).getD 0 default_planet).min_spawn_delay = 0 ∧
    ((planets_of (generate_system P0 rng0)).getD 0 default_planet).max_spawn_delay = 0) :=
  ⟨by decide, by decide, C8_planet_flags P0 rng0 0 (by decide) (by decide)⟩

/-- Claim C10: a starting planet's biome is drawn from the seven-element
enumeration without "gas", a resource planet's from the eight-element
enumeration including "gas". -/
theorem C10_biome_sets (p : Params) (g : Rng) (i : Nat)
    (h : 2 + p.num_additional_planets ≤ 36)
    (hi : i < 2 + p.num_additional_planets) :
    ((planets_of (generate_system p g)).getD i default_planet).planet.biome ∈
      (if i < 2 then starting_biomes else resource_biomes) ∧
    "gas" ∉ starting_biomes ∧ "gas" ∈ resource_biomes ∧
    starting_biomes.length = 7 ∧ resource_biomes.length = 8 := by
  refine ⟨?_, by decide, by decide, rfl, rfl⟩
  by_cases hilt : i < 2
  · rw [if_pos hilt]
    obtain ⟨gi, hgi⟩ := planets_of_getD_start p g h i hilt
    rw [hgi]
    exact mk_starting_biome_mem p i _ _ gi
  · rw [if_neg hilt]
    obtain ⟨j, rfl⟩ : ∃ j, i = j + 2 := ⟨i - 2, by omega⟩
    obtain ⟨gj, hgj⟩ := planets_of_getD_resource p g h j (by omega)
    rw [hgj]
    exact mk_resource_biome_mem p j _ _ gj

/-- Witness for C10 at the default configuration: planet 0 (starting) and,
via the `if`, the starting enumeration. -/
theorem C10_biome_sets_witness :
    (2 + P0.num_additional_planets ≤ 36) ∧ (0 < 2 + P0.num_additional_planets) ∧
    (((planets_of (generate_system P0 rng0)).getD 0 default_planet).planet.biome ∈
      (if 0 < 2 then starting_biomes else resource_biomes) ∧
    "gas" ∉ starting_biomes ∧ "gas" ∈ resource_biomes ∧
    starting_biomes.length = 7 ∧ resource_biomes.length = 8) :=
  ⟨by decide, by decide, C10_biome_sets P0 rng0 0 (by decide) (by decide)⟩

/-- Counterexample to claim C6 as stated: the configuration `bad_params` has
a negative (invalid) starting-planet radius, yet generation does not fail —
it returns a complete 3-planet system embedding the invalid radius. -/
theorem C6_counterexample :
    bad_params.starting_planet_radius = -5 ∧
    (generate_system bad_params rng0).isSome = true ∧
    (planets_of (generate_system bad_params rng0)).length = 3 ∧
    ((planets_of (generate_system bad_params rng0)).getD 0
      default_planet).planet.radius = -5 := by
  have h36 : 2 + bad_params.num_additional_planets ≤ 36 := by decide
  obtain ⟨as, g2, hs, _, _, _, hgen, _⟩ := generate_system_spec bad_params rng0 h36
  refine ⟨rfl, by rw [hgen]; rfl, ?_, ?_⟩
  · rw [planets_of_length bad_params rng0 h36]
    decide
  · obtain ⟨g0, hg0⟩ := planets_of_getD_start bad_params rng0 h36 0 (by omega)
    rw [hg0, mk_starting_radius]
    decide

/-- Claim C6 as amended: `generate_system` performs no explicit validation of
its numeric parameters — invalid values such as a zero or negative planet
radius or metal density pass through unchecked, and for any configuration
whose planet count fits the 36 available angles and whose orbital shell
distances are nonnegative, generation proceeds and returns a complete system
embedding those values.  There is no validation-error path at all; the only
failures are exceptions raised by the primitives generation calls:
`random.sample` when the planet count exceeds the 36 angles, and `math.sqrt`
inside the velocity computation when an orbital distance is negative (last
conjunct: `perp_velocity` yields the error for every negative distance). -/
theorem C6_no_validation (p : Params) (g : Rng)
    (h : 2 + p.num_additional_planets ≤ 36)
    (hB : 0 ≤ p.base_orbital_distance) (hD : 0 ≤ p.orbital_distance_step) :
    (generate_system p g).isSome = true ∧
    (planets_of (generate_system p g)).length = 2 + p.num_additional_planets ∧
    ((planets_of (generate_system p g)).getD 0 default_planet).planet.radius =
      p.starting_planet_radius ∧
    (∀ px py d : ℝ, d < 0 → perp_velocity px py d = none) := by
  obtain ⟨as, g2, hs, _, _, _, hgen, _⟩ := generate_system_spec p g h
  refine ⟨by rw [hgen]; rfl, planets_of_length p g h, ?_, ?_⟩
  · obtain ⟨g0, hg0⟩ := planets_of_getD_start p g h 0 (by omega)
    rw [hg0, mk_starting_radius]
  · intro px py d hdlt
    have hc : calculate_orbital_velocity d = none := by
      unfold calculate_orbital_velocity
      rw [if_neg (by linarith), if_pos hdlt]
    have h1 : perp_velocity_real px py d = none := by
      unfold perp_velocity_real
      rw [if_neg (by linarith), hc]
    unfold perp_velocity
    rw [h1]

/-- Witness for the amended C6 at the invalid configuration `bad_params`
(negative radius, default nonnegative distances). -/
theorem C6_no_validation_witness :
    (2 + bad_params.num_additional_planets ≤ 36) ∧
    (0 ≤ bad_params.base_orbital_distance) ∧ (0 ≤ bad_params.orbital_distance_step) ∧
    ((generate_system bad_params rng0).isSome = true ∧
    (planets_of (generate_system bad_params rng0)).length =
      2 + bad_params.num_additional_planets ∧
    ((planets_of (generate_system bad_params rng0)).getD 0
      default_planet).planet.radius = bad_params.starting_planet_radius ∧
    (∀ px py d : ℝ, d < 0 → perp_velocity px py d = none)) :=
  ⟨by decide, by decide, by decide,
    C6_no_validation bad_params rng0 (by decide) (by decide) (by decide)⟩

/-- Claim C4: every `.pas` member of the produced archive holds the JSON
array `[system]` — a one-element array whose element is the corresponding
system — and the individual-download payload is wrapped in the same
one-element array; the archive holds exactly one `.pas` member per system
plus the two fixed members. -/
theorem C4_pas_array_wrapping (l : List System) (i : Nat) (hi : i < l.length) :
    ((create_zip_file l).getD i dummy_entry).content =
      ZContent.json (Jval.arr [encode_system (l.getD i default_system)]) ∧
    download_json (l.getD i default_system) =
      Jval.arr [encode_system (l.getD i default_system)] ∧
    (create_zip_file l).length = l.length + 2 := by
  refine ⟨?_, rfl, ?_⟩
  · unfold create_zip_file
    have hi' : i < (l.enum.map (fun e => ZipEntry.mk
        ("pa/maps/" ++ sanitize_filename e.2.name ++ "_" ++ toString (e.1 + 1) ++ ".pas")
        (ZContent.json (Jval.arr [encode_system e.2])))).length := by
      simpa [List.enum] using hi
    rw [List.getD_append _ _ _ _ hi', List.getD_eq_getElem _ _ hi', List.getElem_map]
    simp only [List.enum, List.getElem_enumFrom]
    rw [List.getD_eq_getElem _ _ hi]
  · simp [create_zip_file, List.enum]

/-- Witness for C4 on a one-system list. -/
theorem C4_pas_array_wrapping_witness :
    (0 < [default_system].length) ∧
    (((create_zip_file [default_system]).getD 0 dummy_entry).content =
      ZContent.json (Jval.arr [encode_system ([default_system].getD 0 default_system)]) ∧
    download_json ([default_system].getD 0 default_system) =
      Jval.arr [encode_system ([default_system].getD 0 default_system)] ∧
    (create_zip_file [default_system]).length = [default_system].length + 2) :=
  ⟨by decide, C4_pas_array_wrapping [default_system] 0 (by decide)⟩

end PA
